import Mathlib

/-!
# Verification of the yosai core against its design specification

Shallow embedding of the two source files of the repository:

* `src/yosai/realm/realm.py` — `AccountStoreRealm` (authentication with
  credential caching, authorization with wildcard-domain permission lookup).
* `src/yosai/core/mgt/mgt.py` — `AbstractRememberMeManager` (encrypted
  remember-me identity pipeline) and `NativeSecurityManager` (login, logout,
  remembered-identity resolution).

Python objects become Lean structures, exceptions become an explicit
`Except PyExc` result, mutable object state is passed explicitly, and
collaborator objects (account stores, caches, matchers, ciphers) become
function-valued fields so that concrete instances can be evaluated.
-/

namespace Yosai

/-- The Python exceptions that can surface in the embedded code paths.
`nameError n` models a `NameError` raised when an unbound module-level
name `n` is evaluated.  `storeError`/`invalidToken` model failures injected
by collaborators (a persistence hook, Fernet decryption). -/
inductive PyExc where
  | nameError (n : String)
  | attributeError (n : String)
  | realmMisconfigured
  | incorrectCredentials
  | indexError
  | valueError
  | invalidToken
  | storeError (msg : String)
  | additionalAuthRequired (account_id : Option String)
  | authenticationException
  deriving DecidableEq, Repr

/-- `UsernamePasswordToken` from yosai: the authentication token carrying the
submitted principal (`identifier`) and the submitted credentials. -/
structure UsernamePasswordToken where
  identifier : String
  credentials : String
  deriving DecidableEq, Repr

/-- An `Account` as returned by an account store: the stored principal and its
stored credentials. -/
structure Account where
  account_id : String
  credentials : String
  deriving DecidableEq, Repr

/-!
## `AccountStoreRealm` — authentication slice (`realm.py`)

The realm state bundles the attributes set on the Python object:

* `account_store` — `self._account_store`; `none` models the unconfigured
  (`None`) store.  Its `get_account` method is the function value.
* `credentials_cache` — present exactly when a credentials cache handler
  (`self._credentials_cache_handler`) is configured; the handler's
  `get_cached_credentials`/`cache_credentials` pair is modelled as an
  association list keyed by the token identifier (the pluggable cache-key
  resolution collapsed to the principal key that
  `authenticate_account` also uses for clearing).
* `credentials_match` — `self._credentials_matcher.credentials_match`; the
  account argument is optional because `get_credentials` can hand the matcher
  `None`.
* `store_calls` — instrumentation counting `account_store.get_account`
  invocations, used to state cache-suppression properties.
-/

structure AccountStoreRealm where
  account_store : Option (UsernamePasswordToken → Option Account)
  credentials_cache : Option (List (String × Account))
  credentials_match : UsernamePasswordToken → Option Account → Bool
  store_calls : Nat

/-- The cache probe at the top of `get_credentials`:
`cch.get_cached_credentials(authc_token)` when a handler is configured,
otherwise no cached account. -/
def AccountStoreRealm.cached_lookup (realm : AccountStoreRealm)
    (authc_token : UsernamePasswordToken) : Option Account :=
  match realm.credentials_cache with
  | none => none
  | some cache => cache.lookup authc_token.identifier

/-- `AccountStoreRealm.get_credentials` (realm.py lines 144-194).
Cache hit returns the cached account unchanged.  On a miss the account store
is consulted (`AttributeError` on the unset store is converted to
`RealmMisconfiguredException`); an account found in the store is written to
the cache (when a handler exists) before being returned; a store miss returns
`None` without an error. -/
def AccountStoreRealm.get_credentials (realm : AccountStoreRealm)
    (authc_token : UsernamePasswordToken) :
    Except PyExc (Option Account) × AccountStoreRealm :=
  match realm.cached_lookup authc_token with
  | some account => (.ok (some account), realm)
  | none =>
    match realm.account_store with
    | none => (.error .realmMisconfigured, realm)
    | some store =>
      let realm1 := { realm with store_calls := realm.store_calls + 1 }
      match store authc_token with
      | some account =>
        let realm2 :=
          match realm1.credentials_cache with
          | some cache =>
            { realm1 with
              credentials_cache := some ((authc_token.identifier, account) :: cache) }
          | none => realm1
        (.ok (some account), realm2)
      | none => (.ok none, realm1)

/-- `AccountStoreRealm.clear_cached_credentials` (realm.py lines 113-120).
Its body is `cch.clear_cache(identifiers)`, but `cch` is not bound anywhere
in the module (it is neither imported at the top of `realm.py` nor assigned
at module level), so evaluating the name raises `NameError` on every call
and the cache is never touched. -/
def AccountStoreRealm.clear_cached_credentials (realm : AccountStoreRealm)
    (_identifiers : String) : Except PyExc Unit × AccountStoreRealm :=
  (.error (.nameError "cch"), realm)

/-- `AccountStoreRealm.assert_credentials_match` (realm.py lines 205-212):
raises `IncorrectCredentialsException` when the configured matcher reports a
mismatch. -/
def AccountStoreRealm.assert_credentials_match (realm : AccountStoreRealm)
    (authc_token : UsernamePasswordToken) (account : Option Account) :
    Except PyExc Unit :=
  if realm.credentials_match authc_token account then .ok ()
  else .error .incorrectCredentials

/-- `AccountStoreRealm.authenticate_account` (realm.py lines 196-203):
`get_credentials`, then `assert_credentials_match`, then
`clear_cached_credentials(authc_token.identifier)`, then return the
account. -/
def AccountStoreRealm.authenticate_account (realm : AccountStoreRealm)
    (authc_token : UsernamePasswordToken) :
    Except PyExc (Option Account) × AccountStoreRealm :=
  match realm.get_credentials authc_token with
  | (.error e, realm1) => (.error e, realm1)
  | (.ok account, realm1) =>
    match realm1.assert_credentials_match authc_token account with
    | .error e => (.error e, realm1)
    | .ok _ =>
      match realm1.clear_cached_credentials authc_token.identifier with
      | (.error e, realm2) => (.error e, realm2)
      | (.ok _, realm2) => (.ok account, realm2)

/-- A concrete store with one account for principal `alice`. -/
def accountAlice : Account := ⟨"alice", "hunter2"⟩

/-- A concrete realm: configured store that knows `alice`, configured (empty)
credentials cache, password-equality matcher. -/
def realmAlice : AccountStoreRealm :=
  { account_store :=
      some (fun tok => if tok.identifier = "alice" then some accountAlice else none)
  , credentials_cache := some []
  , credentials_match := fun tok account =>
      match account with
      | some a => tok.credentials = a.credentials
      | none => false
  , store_calls := 0 }

/-- The matching token for `alice`. -/
def tokenAlice : UsernamePasswordToken := ⟨"alice", "hunter2"⟩

/-- C1: the claim says a successful `authenticate_account` clears the cached
credentials entry for the token's principal and then returns normally.  The
code cannot do either: `clear_cached_credentials` evaluates the unbound name
`cch` and raises `NameError`.  At the concrete failing input (`realmAlice`
with matching `tokenAlice`) authentication succeeds up to the clearing step,
which raises, so `authenticate_account` propagates `NameError("cch")` and the
credentials cache still holds the entry written for `alice` during
`get_credentials`. -/
theorem authenticate_account_clear_cache_name_error :
    (realmAlice.authenticate_account tokenAlice).fst =
      .error (.nameError "cch") ∧
    ((realmAlice.authenticate_account tokenAlice).snd).credentials_cache =
      some [("alice", accountAlice)] :=
  ⟨rfl, rfl⟩

/-- C8: with a credentials cache handler configured, (a) a cache hit for the
token's principal returns the cached account and leaves the realm (in
particular `store_calls`) unchanged — the account store is not consulted; and
(b) a cache miss whose store fetch yields an account makes exactly one store
call and writes the account to the cache before returning, so a repeated
`get_credentials` for the same token is a cache hit making no further store
call. -/
theorem get_credentials_cache_hit_and_populate
    (realm : AccountStoreRealm) (tok : UsernamePasswordToken)
    (cache : List (String × Account))
    (hcch : realm.credentials_cache = some cache) :
    (∀ a, cache.lookup tok.identifier = some a →
      realm.get_credentials tok = (.ok (some a), realm)) ∧
    (∀ f a, cache.lookup tok.identifier = none →
      realm.account_store = some f → f tok = some a →
      (realm.get_credentials tok).fst = .ok (some a) ∧
      ((realm.get_credentials tok).snd).store_calls = realm.store_calls + 1 ∧
      ((realm.get_credentials tok).snd).get_credentials tok =
        (.ok (some a), (realm.get_credentials tok).snd)) := by
  constructor
  · intro a ha
    simp [AccountStoreRealm.get_credentials, AccountStoreRealm.cached_lookup,
      hcch, ha]
  · intro f a hmiss hstore hf
    simp [AccountStoreRealm.get_credentials, AccountStoreRealm.cached_lookup,
      hcch, hmiss, hstore, hf, List.lookup]

/-- C8 witness: at a concrete realm whose cache already holds `alice`, the
cache hit returns the cached account with no state change; and on `realmAlice`
(empty cache) the miss-then-populate branch returns `alice`'s account, makes
one store call, and the repeated call is served from the cache. -/
theorem get_credentials_cache_hit_and_populate_witness :
    ({ realmAlice with
       credentials_cache := some [("alice", accountAlice)] }.get_credentials tokenAlice =
      (.ok (some accountAlice),
       { realmAlice with credentials_cache := some [("alice", accountAlice)] })) ∧
    (realmAlice.get_credentials tokenAlice).fst = .ok (some accountAlice) ∧
    ((realmAlice.get_credentials tokenAlice).snd).store_calls = 1 ∧
    ((realmAlice.get_credentials tokenAlice).snd).get_credentials tokenAlice =
      (.ok (some accountAlice), (realmAlice.get_credentials tokenAlice).snd) := by
  refine ⟨(get_credentials_cache_hit_and_populate
      { realmAlice with credentials_cache := some [("alice", accountAlice)] }
      tokenAlice [("alice", accountAlice)] rfl).1 accountAlice rfl, ?_⟩
  have h := (get_credentials_cache_hit_and_populate realmAlice tokenAlice [] rfl).2
    (fun tok => if tok.identifier = "alice" then some accountAlice else none)
    accountAlice rfl rfl (by simp [tokenAlice, accountAlice])
  exact ⟨h.1, h.2.1, h.2.2⟩

/-- C9 (amended): on a credentials cache miss — in particular whenever no
cache handler is configured — `get_credentials` raises
`RealmMisconfiguredException` when no account store is configured, and
returns no account (not an error) when the configured store has no record
matching the token. -/
theorem get_credentials_store_path
    (realm : AccountStoreRealm) (tok : UsernamePasswordToken)
    (hmiss : realm.cached_lookup tok = none) :
    (realm.account_store = none →
      realm.get_credentials tok = (.error .realmMisconfigured, realm)) ∧
    (∀ f, realm.account_store = some f → f tok = none →
      realm.get_credentials tok =
        (.ok none, { realm with store_calls := realm.store_calls + 1 })) := by
  constructor
  · intro hnone
    simp [AccountStoreRealm.get_credentials, hmiss, hnone]
  · intro f hstore hf
    simp [AccountStoreRealm.get_credentials, hmiss, hstore, hf]

/-- C9 counterexample: the claim as stated asserts that for every token,
`get_credentials` raises `RealmMisconfigured` when no account store is
configured.  But the misconfiguration check only runs on the cache-miss path:
with no store at all but a cache already holding `alice`'s account,
`get_credentials` returns the cached account normally and raises nothing. -/
theorem get_credentials_no_store_cache_hit_cx :
    ({ account_store := none
     , credentials_cache := some [("alice", accountAlice)]
     , credentials_match := fun _ _ => true
     , store_calls := 0 } : AccountStoreRealm).get_credentials tokenAlice =
      (.ok (some accountAlice),
       { account_store := none
       , credentials_cache := some [("alice", accountAlice)]
       , credentials_match := fun _ _ => true
       , store_calls := 0 }) ∧
    ((Except.ok (some accountAlice) : Except PyExc (Option Account)) ≠
      .error .realmMisconfigured) :=
  ⟨rfl, by simp⟩

/-- C9 witness: on `realmAlice` with its cache emptied of `bob`, the store
path applies — no store configured raises `RealmMisconfigured`, and a
configured store with no record for `bob` returns no account without error. -/
theorem get_credentials_store_path_witness :
    ({ realmAlice with account_store := none }.get_credentials ⟨"bob", "x"⟩ =
      (.error .realmMisconfigured, { realmAlice with account_store := none })) ∧
    (realmAlice.get_credentials ⟨"bob", "x"⟩ =
      (.ok none, { realmAlice with store_calls := 1 })) := by
  refine ⟨(get_credentials_store_path
      { realmAlice with account_store := none } ⟨"bob", "x"⟩ rfl).1 rfl, ?_⟩
  exact (get_credentials_store_path realmAlice ⟨"bob", "x"⟩ rfl).2
    (fun tok => if tok.identifier = "alice" then some accountAlice else none)
    rfl (by simp)

/-!
## `AccountStoreRealm` — authorization slice (`realm.py`)

`is_permitted`, `has_all_roles` and their helpers.  The `implies` method of
permission objects is pluggable (wildcard/superset semantics are left to the
permission implementation), so it is passed as an explicit function.
-/

/-- A resolved `Permission`: `domain` is the iterable the code reads with
`next(iter(permission.domain))`, and `parts` is the opaque remainder that
distinguishes permissions. -/
structure Permission where
  domain : List String
  parts : String
  deriving DecidableEq, Repr

/-- Modelled from the spec: `IndexedAuthorizationInfo` (referenced but not
defined in the repository slice) holds `roleids` — the set of role
identifiers — and a permission collection indexed by a domain key, with
`get_permission domain_key` returning the permissions stored under that key
(empty when the key has no entry).  Python sets are modelled as lists. -/
structure IndexedAuthorizationInfo where
  roleids : List String
  perm_index : List (String × List Permission)
  deriving DecidableEq, Repr

/-- The domain-key lookup of the indexed permission collection. -/
def IndexedAuthorizationInfo.get_permission (info : IndexedAuthorizationInfo)
    (domain_key : String) : List Permission :=
  (info.perm_index.lookup domain_key).getD []

/-- Authorization-side state of `AccountStoreRealm`:
`authorization_cache` is present exactly when an authorization cache handler
is configured (an association list keyed by the identifier collection,
modelled as a string); `has_account_store` records whether
`self._account_store` is set; `permission_resolver` is the optional
`self._permission_resolver`. -/
structure AuthzRealm where
  authorization_cache : Option (List (String × IndexedAuthorizationInfo))
  has_account_store : Bool
  permission_resolver : Option (String → Permission)

/-- `AccountStoreRealm.get_authorization_info` (realm.py lines 218-274).
A configured cache handler holding info for the identifiers returns it.  On a
miss the code runs `self.account_store.get_authz_info(identifiers)`
(`AttributeError` when the store is unset — uncaught here, unlike in
`get_credentials`) and then evaluates `IndexedAuthorizationInfo(...)`; that
class name is not bound anywhere in the module (not imported, not defined),
so the store path always raises `NameError` before anything is cached. -/
def AuthzRealm.get_authorization_info (realm : AuthzRealm)
    (identifiers : String) : Except PyExc IndexedAuthorizationInfo :=
  match realm.authorization_cache.bind (fun cache => cache.lookup identifiers) with
  | some authz_info => .ok authz_info
  | none =>
    if realm.has_account_store then .error (.nameError "IndexedAuthorizationInfo")
    else .error (.attributeError "get_authz_info")

/-- `AccountStoreRealm.get_authzd_permissions` (realm.py lines 277-301):
the candidate set is `frozenset(chain(wildcard_perms, domain_perms))` where
`wildcard_perms = authz_info.get_permission('*')` and
`domain_perms = authz_info.get_permission(next(iter(permission.domain)))`.
The frozenset is modelled as the concatenated list (membership is what the
implication loop consumes); `next(iter(...))` is the head of the domain
iterable (`headI`; theorems only use non-empty domains). -/
def get_authzd_permissions (authz_info : IndexedAuthorizationInfo)
    (permission : Permission) : List Permission :=
  let wildcard_perms := authz_info.get_permission "*"
  let requested_domain := permission.domain.headI
  let domain_perms := authz_info.get_permission requested_domain
  wildcard_perms ++ domain_perms

/-- `AccountStoreRealm.resolve_permissions` (realm.py lines 303-321): maps
the configured resolver over the string permissions; when the resolver is not
set the raised `AttributeError` is caught and an empty set is returned. -/
def AuthzRealm.resolve_permissions (realm : AuthzRealm)
    (string_perms : List String) : List Permission :=
  match realm.permission_resolver with
  | some resolver => string_perms.map resolver
  | none => []

/-- One element of the `permission_s` argument of `is_permitted`: either a
string-form permission or a pre-resolved `Permission` (the docstring forbids
commingling the two in one call). -/
inductive PermSpec where
  | str (s : String)
  | perm (p : Permission)
  deriving DecidableEq, Repr

/-- The string payload of a `PermSpec`, when it is one. -/
def PermSpec.asString : PermSpec → Option String
  | .str s => some s
  | .perm _ => none

/-- The `Permission` payload of a `PermSpec`, when it is one. -/
def PermSpec.asPermission : PermSpec → Option Permission
  | .str _ => none
  | .perm p => some p

/-- `AccountStoreRealm.is_permitted` (realm.py lines 325-349).
The representation of the request is decided by `permission_s[0]` alone
(`IndexError` on an empty collection, raised when the generator body first
runs, before anything is yielded): a string head sends the whole collection
through `resolve_permissions`, otherwise the collection is used as the
requested permissions directly (the projections restrict to the
non-commingled inputs the docstring allows).  Then for each requested
permission the candidate set from `get_authzd_permissions` is scanned,
breaking at the first candidate whose `implies` accepts the request
(`List.any`), and the `(permission, granted)` pairs are produced. -/
def AuthzRealm.is_permitted (implies : Permission → Permission → Bool)
    (realm : AuthzRealm) (identifiers : String) (permission_s : List PermSpec) :
    Except PyExc (List (Permission × Bool)) :=
  match permission_s.head? with
  | none => .error .indexError
  | some head =>
    let requested_perms :=
      match head with
      | .str _ => realm.resolve_permissions (permission_s.filterMap PermSpec.asString)
      | .perm _ => permission_s.filterMap PermSpec.asPermission
    (realm.get_authorization_info identifiers).map (fun authz_info =>
      requested_perms.map (fun reqstd_perm =>
        (reqstd_perm,
         (get_authzd_permissions authz_info reqstd_perm).any
           (fun authz_perm => implies authz_perm reqstd_perm))))

/-- `AccountStoreRealm.has_all_roles` (realm.py lines 366-379):
`roleid_s <= authz_info.roleids`, the set-subset test, modelled as universal
membership of the role-id list. -/
def AuthzRealm.has_all_roles (realm : AuthzRealm) (identifiers : String)
    (roleid_s : List String) : Except PyExc Bool :=
  (realm.get_authorization_info identifiers).map (fun authz_info =>
    roleid_s.all (fun roleid => authz_info.roleids.contains roleid))

/-- A permission granted under the `files` domain. -/
def permFilesRead : Permission := ⟨["files"], "read"⟩

/-- A requested permission in the `network` domain. -/
def permNetworkRead : Permission := ⟨["network"], "read"⟩

/-- Authorization info for the concrete principal `zoe`: roles
`{admin, editor}`, one permission stored under the `files` domain, no
wildcard entry. -/
def infoZoe : IndexedAuthorizationInfo :=
  { roleids := ["admin", "editor"]
  , perm_index := [("files", [permFilesRead])] }

/-- A realm whose authorization cache holds `zoe`'s info (the cache-hit path
of `get_authorization_info`), with no permission resolver configured. -/
def realmZoe : AuthzRealm :=
  { authorization_cache := some [("zoe", infoZoe)]
  , has_account_store := true
  , permission_resolver := none }

/-- Structural equality as a concrete `implies` relation for witnesses. -/
def impliesEq (a b : Permission) : Bool := a == b

/-- C6: for a requested permission `p` with domain `d`, once the
authorization info is resolved, the candidate set computed by
`get_authzd_permissions` is exactly the permissions stored under the wildcard
domain `*` together with those stored under `d`; `is_permitted` reports
`granted = true` for `p` iff some candidate implies `p` (the loop breaks at
the first match, i.e. `List.any`); consequently when neither the `*` bucket
nor the `d` bucket holds any permission — in particular when the account's
permissions all live under other domains — `p` is never granted. -/
theorem is_permitted_domain_candidate_set
    (implies : Permission → Permission → Bool) (realm : AuthzRealm)
    (identifiers : String) (p : Permission) (d : String) (rest : List String)
    (info : IndexedAuthorizationInfo)
    (hdom : p.domain = d :: rest)
    (hinfo : realm.get_authorization_info identifiers = .ok info) :
    get_authzd_permissions info p =
      info.get_permission "*" ++ info.get_permission d ∧
    realm.is_permitted implies identifiers [PermSpec.perm p] =
      .ok [(p, (info.get_permission "*" ++ info.get_permission d).any
        (fun authz_perm => implies authz_perm p))] ∧
    (realm.is_permitted implies identifiers [PermSpec.perm p] = .ok [(p, true)] ↔
      ∃ authz_perm ∈ info.get_permission "*" ++ info.get_permission d,
        implies authz_perm p = true) ∧
    (info.get_permission "*" = [] → info.get_permission d = [] →
      realm.is_permitted implies identifiers [PermSpec.perm p] = .ok [(p, false)]) := by
  have hcand : get_authzd_permissions info p =
      info.get_permission "*" ++ info.get_permission d := by
    simp [get_authzd_permissions, hdom]
  refine ⟨hcand, ?_, ?_, ?_⟩
  · simp [AuthzRealm.is_permitted, hinfo, PermSpec.asPermission, hcand,
      Except.map]
  · simp [AuthzRealm.is_permitted, hinfo, PermSpec.asPermission, hcand,
      Except.map, List.any_eq_true]
    constructor
    · rintro (⟨x, hx, hxp⟩ | ⟨x, hx, hxp⟩)
      · exact ⟨x, Or.inl hx, hxp⟩
      · exact ⟨x, Or.inr hx, hxp⟩
    · rintro ⟨x, hx | hx, hxp⟩
      · exact Or.inl ⟨x, hx, hxp⟩
      · exact Or.inr ⟨x, hx, hxp⟩
  · intro hwild hdomperms
    simp [AuthzRealm.is_permitted, hinfo, PermSpec.asPermission, hcand,
      Except.map, hwild, hdomperms]

/-- C6 witness: on `realmZoe` (info cached for `zoe`, permissions only under
`files`, no `*` entry), a `network`-domain request is not granted, while the
`files`-domain request is granted by the stored `files` permission. -/
theorem is_permitted_domain_candidate_set_witness :
    AuthzRealm.is_permitted impliesEq realmZoe "zoe"
      [PermSpec.perm permNetworkRead] = .ok [(permNetworkRead, false)] ∧
    AuthzRealm.is_permitted impliesEq realmZoe "zoe"
      [PermSpec.perm permFilesRead] = .ok [(permFilesRead, true)] := by
  constructor
  · exact (is_permitted_domain_candidate_set impliesEq realmZoe "zoe"
      permNetworkRead "network" [] infoZoe rfl rfl).2.2.2 rfl rfl
  · exact (is_permitted_domain_candidate_set impliesEq realmZoe "zoe"
      permFilesRead "files" [] infoZoe rfl rfl).2.2.1.mpr
      ⟨permFilesRead, by decide, by decide⟩

/-- C7: once the authorization info for the identifiers is resolved,
`has_all_roles` returns `true` iff every requested role id is among the
info's role ids (the set-subset test `roleid_s <= authz_info.roleids`). -/
theorem has_all_roles_iff_subset
    (realm : AuthzRealm) (identifiers : String) (roleid_s : List String)
    (info : IndexedAuthorizationInfo)
    (hinfo : realm.get_authorization_info identifiers = .ok info) :
    realm.has_all_roles identifiers roleid_s = .ok true ↔
      ∀ r ∈ roleid_s, r ∈ info.roleids := by
  simp [AuthzRealm.has_all_roles, hinfo, Except.map, List.all_eq_true]

/-- C7 witness: `zoe` holds roles `{admin, editor}`, so `has_all_roles`
accepts `{admin}` and `{admin, editor}` but rejects `{admin, superuser}`. -/
theorem has_all_roles_iff_subset_witness :
    realmZoe.has_all_roles "zoe" ["admin"] = .ok true ∧
    realmZoe.has_all_roles "zoe" ["admin", "editor"] = .ok true ∧
    realmZoe.has_all_roles "zoe" ["admin", "superuser"] = .ok false := by
  refine ⟨?_, ?_, rfl⟩
  · exact (has_all_roles_iff_subset realmZoe "zoe" ["admin"] infoZoe rfl).mpr
      (by decide)
  · exact (has_all_roles_iff_subset realmZoe "zoe" ["admin", "editor"] infoZoe
      rfl).mpr (by decide)

/-- C10: `is_permitted` reads `permission_s[0]` to decide the representation
of the whole request.  A call with an empty collection raises `IndexError`
(before any pair is produced and regardless of the realm's state); a call
whose first element is a string routes the entire collection through the
permission resolver — with no resolver configured the result is empty no
matter what follows the head; a call whose first element is a resolved
permission evaluates the given permissions directly. -/
theorem is_permitted_first_element
    (implies : Permission → Permission → Bool) (realm : AuthzRealm)
    (identifiers : String) :
    realm.is_permitted implies identifiers [] = .error .indexError ∧
    (∀ s rest info, realm.get_authorization_info identifiers = .ok info →
      realm.permission_resolver = none →
      realm.is_permitted implies identifiers (PermSpec.str s :: rest) = .ok []) ∧
    (∀ p info, realm.get_authorization_info identifiers = .ok info →
      realm.is_permitted implies identifiers [PermSpec.perm p] =
        .ok [(p, (get_authzd_permissions info p).any
          (fun authz_perm => implies authz_perm p))]) := by
  refine ⟨rfl, ?_, ?_⟩
  · intro s rest info hinfo hres
    simp [AuthzRealm.is_permitted, hinfo, AuthzRealm.resolve_permissions,
      Except.map, hres]
  · intro p info hinfo
    simp [AuthzRealm.is_permitted, hinfo, PermSpec.asPermission, Except.map]

/-- C10 witness: on `realmZoe` the empty request raises `IndexError`; a
request headed by a string yields no pairs (resolver unset), even with a
resolved permission later in the collection; a request headed by a resolved
permission evaluates it. -/
theorem is_permitted_first_element_witness :
    AuthzRealm.is_permitted impliesEq realmZoe "zoe" [] = .error .indexError ∧
    AuthzRealm.is_permitted impliesEq realmZoe "zoe"
      [PermSpec.str "files:read", PermSpec.perm permFilesRead] = .ok [] ∧
    AuthzRealm.is_permitted impliesEq realmZoe "zoe"
      [PermSpec.perm permNetworkRead] = .ok [(permNetworkRead, false)] := by
  refine ⟨(is_permitted_first_element impliesEq realmZoe "zoe").1,
    (is_permitted_first_element impliesEq realmZoe "zoe").2.1 "files:read"
      [PermSpec.perm permFilesRead] infoZoe rfl rfl, ?_⟩
  exact ((is_permitted_first_element impliesEq realmZoe "zoe").2.2
    permNetworkRead infoZoe rfl).trans (by rfl)

/-!
## `AbstractRememberMeManager` (`mgt.py`)

The manager's pure collaborators (serialization codec, Fernet cipher with the
configured keys) are function-valued fields of `RememberMeManager`; its
persistent side — the storage hooks `forget_identity`,
`remember_encrypted_identity` and `get_remembered_encrypted_identity` are
abstract methods whose subclasses are outside the repository slice.
Modelled from the spec (and the abstract-method docstrings in `mgt.py`):
the hooks operate on a single stored-ciphertext slot; `fetch_exc` injects a
failure of the retrieval hook; `forget_calls` counts `forget_identity`
invocations so that "forgets exactly once" is statable.
-/

/-- The persistent remember-me store state (subclass-managed in the code). -/
structure RmmStore where
  stored : Option (List Nat)
  fetch_exc : Option PyExc
  forget_calls : Nat
  deriving DecidableEq, Repr

/-- The pure collaborators of `AbstractRememberMeManager`:
`serialize`/`deserialize` are the injected serialization manager, and
`encrypt`/`decrypt` are `Fernet(self.encryption_cipher_key).encrypt` and
`Fernet(self.decryption_cipher_key).decrypt` (decryption fails on tampered
or wrong-key ciphertext).  Identifier collections are opaque strings. -/
structure RememberMeManager where
  serialize : String → List Nat
  deserialize : List Nat → Except PyExc String
  encrypt : List Nat → List Nat
  decrypt : List Nat → Except PyExc (List Nat)

/-- `forget_identity` storage hook: removes any remembered identity data. -/
def forget_identity (st : RmmStore) : RmmStore :=
  { st with stored := none, forget_calls := st.forget_calls + 1 }

/-- `remember_encrypted_identity` storage hook: persists the ciphertext. -/
def remember_encrypted_identity (st : RmmStore) (encrypted : List Nat) :
    RmmStore :=
  { st with stored := some encrypted }

/-- `get_remembered_encrypted_identity` storage hook: returns the persisted
ciphertext, `None` when there is none, or raises the injected failure. -/
def get_remembered_encrypted_identity (st : RmmStore) :
    Except PyExc (Option (List Nat)) :=
  match st.fetch_exc with
  | some e => .error e
  | none => .ok st.stored

/-- `AbstractRememberMeManager.convert_identifiers_to_bytes` (mgt.py lines
196-206): serialize, then encrypt. -/
def RememberMeManager.convert_identifiers_to_bytes (rmm : RememberMeManager)
    (identifiers : String) : List Nat :=
  rmm.encrypt (rmm.serialize identifiers)

/-- `AbstractRememberMeManager.remember_identity` (mgt.py lines 162-183):
the identity to remember is the account id (`get_identity_to_remember`
ignores the subject), which is serialized, encrypted, and handed to the
persistence hook. -/
def RememberMeManager.remember_identity (rmm : RememberMeManager)
    (st : RmmStore) (account_id : String) : RmmStore :=
  let identifiers := account_id
  let encrypted := rmm.convert_identifiers_to_bytes identifiers
  remember_encrypted_identity st encrypted

/-- `AbstractRememberMeManager.on_successful_login` (mgt.py lines 137-160):
always forget the previous identity first, then remember the new identity
only when the token's `is_remember_me` flag is set (otherwise only a debug
message is logged). -/
def RememberMeManager.on_successful_login (rmm : RememberMeManager)
    (st : RmmStore) (is_remember_me : Bool) (account_id : String) : RmmStore :=
  let st1 := forget_identity st
  if is_remember_me then rmm.remember_identity st1 account_id
  else st1

/-- `AbstractRememberMeManager.convert_bytes_to_identifiers` (mgt.py lines
245-259): decrypt, then deserialize. -/
def RememberMeManager.convert_bytes_to_identifiers (rmm : RememberMeManager)
    (encrypted : List Nat) : Except PyExc String :=
  match rmm.decrypt encrypted with
  | .error e => .error e
  | .ok decrypted => rmm.deserialize decrypted

/-- `AbstractRememberMeManager.on_remembered_identifiers_failure` (mgt.py
lines 261-292): logs, forgets the stored identity, and re-raises the original
exception (it never returns a value). -/
def on_remembered_identifiers_failure (exc : PyExc) (st : RmmStore) :
    Except PyExc (Option String) × RmmStore :=
  (.error exc, forget_identity st)

/-- `AbstractRememberMeManager.get_remembered_identifiers` (mgt.py lines
218-229): fetch the persisted ciphertext; when present, decrypt and
deserialize it; any exception in that pipeline is handed to
`on_remembered_identifiers_failure`, which forgets and re-raises. -/
def RememberMeManager.get_remembered_identifiers (rmm : RememberMeManager)
    (st : RmmStore) : Except PyExc (Option String) × RmmStore :=
  match get_remembered_encrypted_identity st with
  | .error ex => on_remembered_identifiers_failure ex st
  | .ok none => (.ok none, st)
  | .ok (some encrypted) =>
    match rmm.convert_bytes_to_identifiers encrypted with
    | .error ex => on_remembered_identifiers_failure ex st
    | .ok identifiers => (.ok (some identifiers), st)

/-- `NativeSecurityManager.get_remembered_identity` (mgt.py lines 910-925):
with no remember-me manager configured, `None`; otherwise
`rmm.get_remembered_identifiers` is called inside `try`, and `except
Exception` logs a warning and falls through to `return None` — an error in
the remember-me pipeline is never propagated to the caller. -/
def get_remembered_identity (rmm : Option RememberMeManager) (st : RmmStore) :
    Except PyExc (Option String) × RmmStore :=
  match rmm with
  | none => (.ok none, st)
  | some rmm1 =>
    match rmm1.get_remembered_identifiers st with
    | (.ok identifiers, st1) => (.ok identifiers, st1)
    | (.error _, st1) => (.ok none, st1)

/-- C5: on every successful-login hook call the previously stored identity is
forgotten first, unconditionally and exactly once (`forget_calls` rises by
one and the remember step overwrites, rather than being erased by, the
forget); afterwards the new identity — the encrypted serialization of the
account id — is remembered iff the token requests remember-me, and when it
does not, the state is exactly the forgotten one, with no further change. -/
theorem on_successful_login_forget_then_remember
    (rmm : RememberMeManager) (st : RmmStore) (is_remember_me : Bool)
    (account_id : String) :
    rmm.on_successful_login st is_remember_me account_id =
      (if is_remember_me then
        { forget_identity st with
          stored := some (rmm.encrypt (rmm.serialize account_id)) }
       else forget_identity st) ∧
    (rmm.on_successful_login st is_remember_me account_id).forget_calls =
      st.forget_calls + 1 ∧
    (rmm.on_successful_login st is_remember_me account_id).stored =
      (if is_remember_me then some (rmm.encrypt (rmm.serialize account_id))
       else none) := by
  cases is_remember_me <;>
    simp [RememberMeManager.on_successful_login,
      RememberMeManager.remember_identity,
      RememberMeManager.convert_identifiers_to_bytes,
      remember_encrypted_identity, forget_identity]

/-- C2 (amended): whenever the remembered-identity pipeline fails — the
fetch hook raises, or the fetched ciphertext fails to decrypt or
deserialize — `get_remembered_identifiers` forgets the stored identity
exactly once and re-raises the original error; but the identifier-resolution
step `NativeSecurityManager.get_remembered_identity` catches that error,
logs it, and returns no identifiers (`.ok none`) instead of propagating it
to its caller. -/
theorem remembered_failure_forget_then_reraise
    (rmm : RememberMeManager) (st : RmmStore) (e : PyExc)
    (hfail : get_remembered_encrypted_identity st = .error e ∨
      ∃ encrypted, get_remembered_encrypted_identity st = .ok (some encrypted) ∧
        rmm.convert_bytes_to_identifiers encrypted = .error e) :
    rmm.get_remembered_identifiers st = (.error e, forget_identity st) ∧
    (forget_identity st).forget_calls = st.forget_calls + 1 ∧
    get_remembered_identity (some rmm) st = (.ok none, forget_identity st) := by
  have hpipe : rmm.get_remembered_identifiers st = (.error e, forget_identity st) := by
    rcases hfail with hfetch | ⟨encrypted, hfetch, hconv⟩
    · simp [RememberMeManager.get_remembered_identifiers, hfetch,
        on_remembered_identifiers_failure]
    · simp [RememberMeManager.get_remembered_identifiers, hfetch, hconv,
        on_remembered_identifiers_failure]
  refine ⟨hpipe, rfl, ?_⟩
  simp [get_remembered_identity, hpipe]

/-- A remember-me manager whose decryption always fails (e.g. after a key
rotation), with an identity serialization suitable for witnesses. -/
def rmmBadKey : RememberMeManager :=
  { serialize := fun _ => [1]
  , deserialize := fun _ => .ok "zoe"
  , encrypt := fun bytes => bytes
  , decrypt := fun _ => .error .invalidToken }

/-- A store holding a remembered ciphertext, with a working fetch hook. -/
def storeWithCiphertext : RmmStore :=
  { stored := some [9, 9], fetch_exc := none, forget_calls := 0 }

/-- C2 witness: with a stored ciphertext that no longer decrypts, the
pipeline forgets once and re-raises the Fernet error, and
`get_remembered_identity` swallows it into `.ok none`. -/
theorem remembered_failure_forget_then_reraise_witness :
    rmmBadKey.get_remembered_identifiers storeWithCiphertext =
      (.error .invalidToken, forget_identity storeWithCiphertext) ∧
    (forget_identity storeWithCiphertext).forget_calls = 1 ∧
    get_remembered_identity (some rmmBadKey) storeWithCiphertext =
      (.ok none, forget_identity storeWithCiphertext) :=
  remembered_failure_forget_then_reraise rmmBadKey storeWithCiphertext
    .invalidToken (Or.inr ⟨[9, 9], rfl, rfl⟩)

/-- C2 counterexample: the claim says the identifier-resolution step
propagates the pipeline error to its caller.  At a concrete store whose
fetch hook raises, the inner pipeline does fail with the original error, yet
`get_remembered_identity` returns `.ok none` — the error is swallowed and
resolution continues with no identifiers. -/
theorem get_remembered_identity_swallows_cx :
    (rmmBadKey.get_remembered_identifiers
      { stored := none, fetch_exc := some (.storeError "fetch"), forget_calls := 0 }).fst =
      .error (.storeError "fetch") ∧
    (get_remembered_identity (some rmmBadKey)
      { stored := none, fetch_exc := some (.storeError "fetch"), forget_calls := 0 }).fst =
      .ok none ∧
    (Except.ok (none : Option String) ≠
      (.error (.storeError "fetch") : Except PyExc (Option String))) :=
  ⟨rfl, rfl, by simp⟩

/-!
## `NativeSecurityManager` — login and logout (`mgt.py`)

State threaded through the manager's side effects:

* `rmm_store` — the remember-me persistence slot (hooks as above);
* `saves` — the trace of `subject_store.save` calls, most recent first;
* `delete_exc` — injected failure of `subject_store.delete`;
* `delete_calls` / `stop_calls` — instrumentation counting
  `subject_store.delete` and `session.stop` invocations.

`Subject` carries the fields the claims observe; its optional session is a
handle whose `stop` can be made to raise.  The authenticator and the
subject-construction pipeline of `create_subject` (context resolution,
§4.2) are collaborator-valued fields so login's branches can be stated
without embedding the whole subject pipeline.
-/

/-- A session handle as returned by `subject.get_session(False)`;
`stop_exc` injects a failure of `session.stop`. -/
structure SessionRef where
  stop_exc : Option PyExc
  deriving DecidableEq, Repr

/-- The `Subject` fields the management claims observe. -/
structure Subject where
  identifiers : Option String
  authenticated : Bool
  session : Option SessionRef
  deriving DecidableEq, Repr

/-- An authentication token as seen by `mgt.py`: the submitted principal and
the `is_remember_me` flag read by the remember-me hook. -/
structure AuthenticationToken where
  identifier : String
  is_remember_me : Bool
  deriving DecidableEq, Repr

/-- Mutable state owned by the security manager's collaborators. -/
structure MgtState where
  rmm_store : RmmStore
  saves : List Subject
  delete_exc : Option PyExc
  delete_calls : Nat
  stop_calls : Nat
  deriving DecidableEq, Repr

/-- `NativeSecurityManager` composition: the authenticator's
`authenticate_account(subject.identifiers, authc_token)` call, the optional
remember-me manager, and the subject-construction pipeline of
`create_subject` (running the context-resolution steps; opaque here —
the login claims only observe the branch taken before or after it). -/
structure NativeSecurityManager where
  authenticator : Option String → AuthenticationToken → Except PyExc String
  remember_me_manager : Option RememberMeManager
  create_subject : AuthenticationToken → String → Subject → Subject

/-- `NativeSecurityManager.save` (mgt.py lines 723-728): delegates to
`subject_store.save`; recorded on the save trace. -/
def NativeSecurityManager.save (st : MgtState) (subject : Subject) : MgtState :=
  { st with saves := subject :: st.saves }

/-- `NativeSecurityManager.update_subject_identity` (mgt.py lines 584-587):
replace the subject's identifiers with the (partial) account id and re-save
the same subject. -/
def NativeSecurityManager.update_subject_identity (st : MgtState)
    (account_id : Option String) (subject : Subject) : Subject × MgtState :=
  let subject1 := { subject with identifiers := account_id }
  (subject1, NativeSecurityManager.save st subject1)

/-- Which exceptions the `except AuthenticationException` clause of `login`
catches.  Modelled from the spec's error taxonomy (§7): the concrete
exception class hierarchy lives outside the repository slice. -/
def PyExc.is_authentication_exc : PyExc → Bool
  | .incorrectCredentials => true
  | .authenticationException => true
  | .additionalAuthRequired _ => true
  | _ => false

/-- `NativeSecurityManager.remember_me_failed_login` → `on_failed_login`
(mgt.py lines 610-621, 316-329): with a remember-me manager configured, the
stored identity is forgotten; all exceptions are caught and logged. -/
def NativeSecurityManager.on_failed_login (sm : NativeSecurityManager)
    (st : MgtState) : MgtState :=
  match sm.remember_me_manager with
  | some _ => { st with rmm_store := forget_identity st.rmm_store }
  | none => st

/-- `NativeSecurityManager.remember_me_successful_login` (mgt.py lines
589-608): with a remember-me manager configured, run its
`on_successful_login` hook; exceptions are caught and logged. -/
def NativeSecurityManager.remember_me_successful_login
    (sm : NativeSecurityManager) (st : MgtState)
    (authc_token : AuthenticationToken) (account_id : String) : MgtState :=
  match sm.remember_me_manager with
  | some rmm =>
    { st with rmm_store :=
        rmm.on_successful_login st.rmm_store authc_token.is_remember_me account_id }
  | none => st

/-- `NativeSecurityManager.login` (mgt.py lines 635-684).
`AdditionalAuthenticationRequired` from the authenticator triggers
`update_subject_identity(exc.account_id, subject)` and then
`raise AdditionalAuthenticationRequired` — the bare class, a freshly
constructed exception carrying no account id (the code comments "no need to
propagate account further").  Other `AuthenticationException`s run the
failed-login hooks (errors there logged and swallowed) and re-raise.  On
success the subject is constructed and saved and the successful-login hook
runs. -/
def NativeSecurityManager.login (sm : NativeSecurityManager) (st : MgtState)
    (subject : Subject) (authc_token : AuthenticationToken) :
    Except PyExc Subject × MgtState :=
  match sm.authenticator subject.identifiers authc_token with
  | .error (.additionalAuthRequired account_id) =>
    let (_, st1) := NativeSecurityManager.update_subject_identity st account_id subject
    (.error (.additionalAuthRequired none), st1)
  | .error e =>
    if e.is_authentication_exc then (.error e, sm.on_failed_login st)
    else (.error e, st)
  | .ok account_id =>
    let logged_in := sm.create_subject authc_token account_id subject
    let st1 := NativeSecurityManager.save st logged_in
    let st2 := sm.remember_me_successful_login st1 authc_token account_id
    (.ok logged_in, st2)

/-- `NativeSecurityManager.stop_session` (mgt.py lines 905-908):
`subject.get_session(False)`; when a session exists, `session.stop` is
invoked (and may raise). -/
def NativeSecurityManager.stop_session (subject : Subject) (st : MgtState) :
    Except PyExc Unit × MgtState :=
  match subject.session with
  | none => (.ok (), st)
  | some session =>
    let st1 := { st with stop_calls := st.stop_calls + 1 }
    match session.stop_exc with
    | some e => (.error e, st1)
    | none => (.ok (), st1)

/-- `NativeSecurityManager.delete` (mgt.py lines 730-739): delegates to
`subject_store.delete`, which may raise the injected failure. -/
def NativeSecurityManager.delete_subject (st : MgtState) :
    Except PyExc Unit × MgtState :=
  let st1 := { st with delete_calls := st.delete_calls + 1 }
  match st.delete_exc with
  | some e => (.error e, st1)
  | none => (.ok (), st1)

/-- `NativeSecurityManager.before_logout` → `remember_me_logout` →
`on_logout` (mgt.py lines 692-693, 623-633, 331-338): forget the remembered
identity when a manager is configured; exceptions caught and logged. -/
def NativeSecurityManager.before_logout (sm : NativeSecurityManager)
    (st : MgtState) : MgtState :=
  match sm.remember_me_manager with
  | some _ => { st with rmm_store := forget_identity st.rmm_store }
  | none => st

/-- `NativeSecurityManager.logout` (mgt.py lines 865-903).  A `None` subject
raises `ValueError` before any cleanup.  Otherwise: best-effort remember-me
hook, then `delete(subject)` inside `try/except Exception` (logged, ignored),
then — in the `finally` block — `stop_session(subject)` inside its own
`try/except Exception` (logged, ignored); the method returns normally. -/
def NativeSecurityManager.logout (sm : NativeSecurityManager) (st : MgtState)
    (subject : Option Subject) : Except PyExc Unit × MgtState :=
  match subject with
  | none => (.error .valueError, st)
  | some subj =>
    let st1 := sm.before_logout st
    let st2 := (NativeSecurityManager.delete_subject st1).snd
    let st3 := (NativeSecurityManager.stop_session subj st2).snd
    (.ok (), st3)

/-- C3 (amended): when the authenticator raises
`AdditionalAuthenticationRequired` carrying the partial account id `P`,
`login` re-saves the same subject with its identifiers replaced by `P` —
leaving the `authenticated` flag and every other field untouched and
constructing no new subject — and propagates a continuation error to the
caller; the propagated exception is freshly constructed by
`raise AdditionalAuthenticationRequired` and carries no account id. -/
theorem login_additional_authc_persists_partial
    (sm : NativeSecurityManager) (st : MgtState) (subject : Subject)
    (authc_token : AuthenticationToken) (P : String)
    (hauth : sm.authenticator subject.identifiers authc_token =
      .error (.additionalAuthRequired (some P))) :
    sm.login st subject authc_token =
      (.error (.additionalAuthRequired none),
       { st with saves := { subject with identifiers := some P } :: st.saves }) := by
  simp [NativeSecurityManager.login, hauth,
    NativeSecurityManager.update_subject_identity, NativeSecurityManager.save]

/-- An authenticator that always demands a second factor, carrying the
partial account id `P`. -/
def smPartial : NativeSecurityManager :=
  { authenticator := fun _ _ => .error (.additionalAuthRequired (some "P"))
  , remember_me_manager := none
  , create_subject := fun _ _ subject => subject }

/-- An anonymous subject starting the multi-factor login. -/
def subjAnon : Subject :=
  { identifiers := none, authenticated := false, session := none }

/-- An initial management state with empty traces. -/
def stInit : MgtState :=
  { rmm_store := { stored := none, fetch_exc := none, forget_calls := 0 }
  , saves := [], delete_exc := none, delete_calls := 0, stop_calls := 0 }

/-- The first-factor token for the multi-factor witness. -/
def tokFirstFactor : AuthenticationToken := ⟨"zoe", false⟩

/-- C3 witness: at the concrete multi-factor realm, login saves the subject
with identifiers `P`, unauthenticated, and raises the bare continuation
error. -/
theorem login_additional_authc_persists_partial_witness :
    smPartial.login stInit subjAnon tokFirstFactor =
      (.error (.additionalAuthRequired none),
       { stInit with saves := [{ subjAnon with identifiers := some "P" }] }) :=
  login_additional_authc_persists_partial smPartial stInit subjAnon
    tokFirstFactor "P" rfl

/-- C3 counterexample: the claim says the propagated continuation error
carries the partial account id `P`.  At the concrete input the authenticator
raises `AdditionalAuthenticationRequired(some "P")`, but the error `login`
propagates is the bare re-raise carrying no account id. -/
theorem login_continuation_drops_account_cx :
    (smPartial.login stInit subjAnon tokFirstFactor).fst =
      .error (.additionalAuthRequired none) ∧
    (PyExc.additionalAuthRequired none) ≠
      (PyExc.additionalAuthRequired (some "P")) :=
  ⟨rfl, by decide⟩

/-- C4: for any non-nil subject — whatever failures are injected into the
subject-store delete and the session stop — `logout` returns normally,
`subject_store.delete` is attempted exactly once, and `session.stop` is
attempted exactly when the subject has a session (so a raising delete never
prevents the session stop, and two raising cleanups still return normally);
a nil subject instead fails with `ValueError` and the state is untouched (no
cleanup runs). -/
theorem logout_resilient_cleanup
    (sm : NativeSecurityManager) (st : MgtState) (subj : Subject) :
    (sm.logout st (some subj)).fst = .ok () ∧
    ((sm.logout st (some subj)).snd).delete_calls = st.delete_calls + 1 ∧
    ((sm.logout st (some subj)).snd).stop_calls =
      st.stop_calls + (if subj.session.isSome then 1 else 0) ∧
    sm.logout st none = (.error .valueError, st) := by
  obtain ⟨ids, auth, session⟩ := subj
  cases session with
  | none =>
    cases hr : sm.remember_me_manager <;> cases hd : st.delete_exc <;>
      simp [NativeSecurityManager.logout, NativeSecurityManager.before_logout,
        NativeSecurityManager.delete_subject, NativeSecurityManager.stop_session,
        hr, hd]
  | some s =>
    cases hs : s.stop_exc <;> cases hr : sm.remember_me_manager <;>
      cases hd : st.delete_exc <;>
      simp [NativeSecurityManager.logout, NativeSecurityManager.before_logout,
        NativeSecurityManager.delete_subject, NativeSecurityManager.stop_session,
        hr, hd, hs]

end Yosai
